import Mathlib

/-!
# Metrics collector of DirectPV (`pkg/metrics/collector.go`)

A shallow embedding of `metricsCollector.publishVolumeStats` and
`metricsCollector.Collect`.  The Go code is effectful: it calls two injected
collaborators, writes log lines, records Kubernetes events and sends samples on
a channel.  Here every function returns an `Outcome`: the list of effects it
performed, in program order, together with a flag telling whether the run ended
in a Go runtime panic instead of a normal return.

Conventions.
* A Go `error` is `Option Error`: `none` is `nil`.
* A Go pointer that may be `nil` is an `Option`.
* The result channel of the lister is the finite list of the items it delivers
  before it is closed.
* The two injected collaborators are functions of their arguments: within one
  cycle the same call gives the same result.
* The cycle context `ctx` is created at the top of `Collect` and cancelled only
  when `Collect` returns, so it is the same live context at every call and is
  left out of the signatures.
-/

namespace Metrics

/-! ## Data model -/

/-- A non-nil Go `error`, represented by its message. -/
abbrev Error := String

/-- Modelled from the spec: the `types.Volume` status declaration is outside
`src/`; these are the status fields `collector.go` reads (filesystem UUID, node
name, total capacity in bytes as a signed 64-bit integer, container path). -/
structure VolumeStatus where
  FSUUID : String
  NodeName : String
  TotalCapacity : Int
  ContainerPath : String
deriving DecidableEq

/-- Modelled from the spec: the `types.Volume` declaration is outside `src/`;
a volume has a name, a label set (a Go map, possibly `nil`, keys unique) and a
status. -/
structure Volume where
  Name : String
  Labels : Option (List (String × String))
  Status : VolumeStatus
deriving DecidableEq

/-- The label set of the object, `nil` when there is none (`GetLabels`). -/
def Volume.GetLabels (volume : Volume) : Option (List (String × String)) :=
  volume.Labels

/-- Modelled from the spec: the `xfs.Quota` declaration is outside `src/`; the
spec gives it a current space and a total space, both in bytes (unsigned). -/
structure Quota where
  CurrentSpace : Nat
  TotalSpace : Nat
deriving DecidableEq

/-- One item of the stream returned by `volume.ListVolumes`: a volume (a value,
not a pointer) and a delivery error. -/
structure ListVolumeResult where
  Volume : Volume
  Err : Option Error
deriving DecidableEq

/-! ## The Prometheus client library, as far as the collector uses it -/

/-- The `prometheus.BuildFQName` function: joins the non-empty parts with an
underscore; an empty name gives the empty string. -/
def BuildFQName (ns subsystem name : String) : String :=
  if name = "" then ""
  else if ns ≠ "" ∧ subsystem ≠ "" then ns ++ "_" ++ subsystem ++ "_" ++ name
  else if ns ≠ "" then ns ++ "_" ++ name
  else if subsystem ≠ "" then subsystem ++ "_" ++ name
  else name

/-- A metric descriptor (`prometheus.Desc`): fully qualified name, help text and
the names of the variable labels. -/
structure Desc where
  fqName : String
  help : String
  variableLabels : List String
deriving DecidableEq

/-- The `prometheus.NewDesc` constructor (constant labels are `nil` at every
call site of the collector). -/
def NewDesc (fqName help : String) (variableLabels : List String) : Desc :=
  { fqName := fqName, help := help, variableLabels := variableLabels }

/-- The value types of `prometheus`. -/
inductive ValueType where
  | CounterValue
  | GaugeValue
  | UntypedValue
deriving DecidableEq

/-- A constant metric: one sample. `value` is the number held by the `float64`,
which is an integer for every value the collector converts. -/
structure Metric where
  desc : Desc
  valueType : ValueType
  value : Int
  labelValues : List String
deriving DecidableEq

/-- The `prometheus.NewConstMetric` constructor: it fails when the number of
label values differs from the number of variable labels of the descriptor.
Its other failure conditions (a descriptor with an invalid name, a label value
that is not UTF-8) concern the fixed names of the call sites and byte strings
that are not text; strings are Unicode text here. -/
def NewConstMetric (desc : Desc) (valueType : ValueType) (value : Int)
    (labelValues : List String) : Except Error Metric :=
  if labelValues.length ≠ desc.variableLabels.length then
    .error "inconsistent label cardinality"
  else
    .ok { desc := desc, valueType := valueType, value := value, labelValues := labelValues }

/-- The number held by Go's `float64(n)` for a natural number: exact below
`2 ^ 53`, otherwise `n` rounded to 53 significant bits, ties to even. -/
def float64OfNat (n : Nat) : Nat :=
  if n < 2 ^ 53 then n
  else
    let s := Nat.log2 n - 52
    let q := n / 2 ^ s
    let r := n % 2 ^ s
    let half := 2 ^ (s - 1)
    if half < r ∨ (r = half ∧ q % 2 = 1) then (q + 1) * 2 ^ s else q * 2 ^ s

/-- The number held by Go's `float64(z)` for a 64-bit integer. -/
def float64 (z : Int) : Int :=
  match z with
  | Int.ofNat n => Int.ofNat (float64OfNat n)
  | Int.negSucc n => - Int.ofNat (float64OfNat (n + 1))

/-! ## Effects and outcomes -/

/-- What the collector does to the outside world. -/
inductive Effect where
  /-- A call of `getDeviceByFSUUID`. -/
  | resolveCall (fsuuid : String)
  /-- A call of `getQuota`. -/
  | quotaCall (device volumeID : String)
  /-- A `klog` error line; `verbosity` is `some n` under `klog.V(n)`. -/
  | log (verbosity : Option Nat) (err : Error) (msg : String)
      (keysAndValues : List (String × String))
  /-- An event recorded on a volume object by `client.Eventf`. -/
  | event (object : Volume) (eventType reason message : String)
  /-- A sample sent on the metric channel. -/
  | sample (m : Metric)
deriving DecidableEq

/-- The result of running a piece of the collector: its effects in program
order, and whether it ended in a runtime panic. -/
structure Outcome where
  effects : List Effect
  panicked : Bool
deriving DecidableEq

/-- The samples sent, in order. -/
def Outcome.samples (o : Outcome) : List Metric :=
  o.effects.filterMap fun e => match e with
    | .sample m => some m
    | _ => none

/-- The events recorded, in order: object, type, reason, message. -/
def Outcome.events (o : Outcome) : List (Volume × String × String × String) :=
  o.effects.filterMap fun e => match e with
    | .event obj ty reason msg => some (obj, ty, reason, msg)
    | _ => none

/-- The filesystem UUIDs the device resolver was called with, in order. -/
def Outcome.resolveCalls (o : Outcome) : List String :=
  o.effects.filterMap fun e => match e with
    | .resolveCall u => some u
    | _ => none

/-- The (device, volume) pairs the quota prober was called with, in order. -/
def Outcome.quotaCalls (o : Outcome) : List (String × String) :=
  o.effects.filterMap fun e => match e with
    | .quotaCall d v => some (d, v)
    | _ => none

/-! ## The collector -/

/-- The `corev1.EventTypeWarning` constant. -/
def EventTypeWarning : String := "Warning"

/-- The `tenantLabel` constant; `AppName` stands for `consts.AppName`, which is
declared outside `src/`. -/
def tenantLabel (AppName : String) : String := AppName ++ ".min.io/tenant"

/-- The `metricsCollector` struct. -/
structure metricsCollector where
  nodeID : String
  desc : Desc
  getDeviceByFSUUID : (fsuuid : String) → String × Option Error
  getQuota : (device volumeID : String) → Option Quota × Option Error

/-- The `Describe` method: sends the descriptor of the collector. -/
def Describe (c : metricsCollector) : List Desc := [c.desc]

/-- The message of the warning event: the format string of line 69-72 with
`%v` replaced by the filesystem UUID. -/
def eventMessage (fsuuid : String) : String :=
  "unable to find device by FSUUID " ++ fsuuid ++ "; " ++
    "either device is removed or run command " ++
    "`sudo udevadm control --reload-rules && sudo udevadm trigger`" ++
    " on the host to reload"

/-- The tenant name computed on lines 81-84 of `publishVolumeStats`: the entry
of the label map under `tenantLabel`, the zero value `""` when the key is
missing, and `""` when the map is `nil`. -/
def tenantName (AppName : String) (volume : Volume) : String :=
  match volume.GetLabels with
  | some labels => (labels.lookup (tenantLabel AppName)).getD ""
  | none => ""

/-- The `publishVolumeStats` method. -/
def publishVolumeStats (AppName : String) (mc : metricsCollector) (volume : Volume) : Outcome :=
  let (device, err) := mc.getDeviceByFSUUID volume.Status.FSUUID
  let called := [Effect.resolveCall volume.Status.FSUUID]
  match err with
  | some err =>
    { effects := called ++
        [ Effect.log none err
            ("unable to find device by FSUUID; " ++
              "either device is removed or run command " ++
              "`sudo udevadm control --reload-rules && sudo udevadm trigger`" ++
              "on the host to reload")
            [("FSUUID", volume.Status.FSUUID)],
          Effect.event volume EventTypeWarning "NodeStageVolume"
            (eventMessage volume.Status.FSUUID) ],
      panicked := false }
  | none =>
    let (quota, err) := mc.getQuota device volume.Name
    let called := called ++ [Effect.quotaCall device volume.Name]
    match err with
    | some err =>
      { effects := called ++
          [Effect.log none err "unable to get quota information" [("volume", volume.Name)]],
        panicked := false }
    | none =>
      let tenantName : String := tenantName AppName volume
      match quota with
      | none =>
        -- `quota.CurrentSpace` dereferences a nil pointer
        { effects := called, panicked := true }
      | some quota =>
        match NewConstMetric
            (NewDesc (BuildFQName AppName "stats" "bytes_used")
              "Total number of bytes used by the volume"
              ["tenant", "volumeID", "node"])
            ValueType.GaugeValue
            (float64 (Int.ofNat quota.CurrentSpace))
            [tenantName, volume.Name, volume.Status.NodeName] with
        | .error _ => { effects := called, panicked := true }
        | .ok used =>
          match NewConstMetric
              (NewDesc (BuildFQName AppName "stats" "bytes_total")
                "Total number of bytes allocated to the volume"
                ["tenant", "volumeID", "node"])
              ValueType.GaugeValue
              (float64 volume.Status.TotalCapacity)
              [tenantName, volume.Name, volume.Status.NodeName] with
          | .error _ => { effects := called ++ [Effect.sample used], panicked := true }
          | .ok total =>
            { effects := called ++ [Effect.sample used, Effect.sample total],
              panicked := false }

/-- The `for result := range resultCh` loop of `Collect`. -/
def collectLoop (AppName : String) (c : metricsCollector) : List ListVolumeResult → Outcome
  | [] => { effects := [], panicked := false }
  | result :: rest =>
    match result.Err with
    | some _ => { effects := [], panicked := false }
    | none =>
      if result.Volume.Status.ContainerPath ≠ "" then
        let o := publishVolumeStats AppName c result.Volume
        if o.panicked then o
        else
          let r := collectLoop AppName c rest
          { effects := o.effects ++ r.effects, panicked := r.panicked }
      else collectLoop AppName c rest

/-- The `Collect` method. `ListVolumes` stands for `volume.ListVolumes`, which
is declared outside `src/`: given the node label values to filter on it returns
the result stream and an error. -/
def Collect (AppName : String)
    (ListVolumes : (nodes : List String) → List ListVolumeResult × Option Error)
    (c : metricsCollector) : Outcome :=
  let (resultCh, err) := ListVolumes [c.nodeID]
  match err with
  | some err =>
    { effects := [Effect.log (some 3) err "unable to get volume list" []], panicked := false }
  | none => collectLoop AppName c resultCh

/-! ## The scenario of the specification -/

/-- Volume A: mounted, UUID `u1`, capacity 100. -/
def volA : Volume :=
  { Name := "A", Labels := some [("directpv.min.io/tenant", "t1")],
    Status := { FSUUID := "u1", NodeName := "node1", TotalCapacity := 100,
                ContainerPath := "/var/lib/a" } }

/-- Volume B: not mounted. -/
def volB : Volume :=
  { Name := "B", Labels := none,
    Status := { FSUUID := "u3", NodeName := "node1", TotalCapacity := 70,
                ContainerPath := "" } }

/-- Volume C: mounted, UUID `u2`, capacity 50. -/
def volC : Volume :=
  { Name := "C", Labels := some [],
    Status := { FSUUID := "u2", NodeName := "node1", TotalCapacity := 50,
                ContainerPath := "/var/lib/c" } }

/-- The collector of the scenario: `u1` resolves to `/dev/x1`, every other UUID
fails; the quota of `(/dev/x1, A)` is 40 used of 100, every other probe fails. -/
def scenarioCollector : metricsCollector :=
  { nodeID := "node1",
    desc := NewDesc "directpv_stats" "Statistics exposed by DirectPV" [],
    getDeviceByFSUUID := fun fsuuid =>
      if fsuuid = "u1" then ("/dev/x1", none) else ("", some "device not found"),
    getQuota := fun device volumeID =>
      if device = "/dev/x1" ∧ volumeID = "A" then
        (some { CurrentSpace := 40, TotalSpace := 100 }, none)
      else (none, some "quota not found") }

/-- The lister of the scenario: delivers A, B, C without error. -/
def scenarioList (_nodes : List String) : List ListVolumeResult × Option Error :=
  ([⟨volA, none⟩, ⟨volB, none⟩, ⟨volC, none⟩], none)

/-! ## Notions used to state the properties -/

/-- Sequential composition of two runs: the second run happens only when the
first one returned normally. -/
def Outcome.andThen (first second : Outcome) : Outcome :=
  if first.panicked then first
  else { effects := first.effects ++ second.effects, panicked := second.panicked }

/-- The loop runs through a stream up to its end: no item carries a delivery
error and no publication panics. -/
def runsThrough (AppName : String) (mc : metricsCollector)
    (stream : List ListVolumeResult) : Bool :=
  stream.all fun r =>
    r.Err.isNone &&
      (decide (r.Volume.Status.ContainerPath = "") ||
        !(publishVolumeStats AppName mc r.Volume).panicked)

/-- The volumes of a stream that a cycle publishes: those delivered strictly
before the first item carrying a delivery error (all of them when there is no
such item) whose container path is not empty, in delivery order. -/
def publishedVolumes (stream : List ListVolumeResult) : List Volume :=
  ((stream.takeWhile fun r => r.Err.isNone).filter
    fun r => decide (r.Volume.Status.ContainerPath ≠ "")).map fun r => r.Volume

/-- The quota prober keeps the Go convention: when it returns a nil error it
returns a quota (a non-nil reference). -/
def QuotaContract (mc : metricsCollector) : Prop :=
  ∀ device volumeID, (mc.getQuota device volumeID).2 = none →
    (mc.getQuota device volumeID).1 ≠ none

/-- The label values of a sample carry `volumeID` in second position. -/
def Metric.volumeID (m : Metric) : String := m.labelValues.getD 1 ""

/-- The samples of an outcome whose `volumeID` label is the given name. -/
def Outcome.samplesOf (o : Outcome) (name : String) : List Metric :=
  o.samples.filter fun m => m.volumeID = name

/-- A list of samples consists of adjacent pairs: a `bytes_used` gauge directly
followed by the `bytes_total` gauge with the same label values. -/
def pairedSamples (AppName : String) : List Metric → Prop
  | [] => True
  | [_] => False
  | used :: total :: rest =>
    used.desc.fqName = BuildFQName AppName "stats" "bytes_used" ∧
    total.desc.fqName = BuildFQName AppName "stats" "bytes_total" ∧
    used.labelValues = total.labelValues ∧
    pairedSamples AppName rest

/-- A mounted volume on the resolving device of the scenario for which the
scenario has no quota. -/
def volD : Volume :=
  { Name := "D", Labels := none,
    Status := { FSUUID := "u1", NodeName := "node1", TotalCapacity := 10,
                ContainerPath := "/var/lib/d" } }

/-- A collector whose device resolver always succeeds and whose quota prober
returns a nil quota together with a nil error. -/
def nilQuotaCollector : metricsCollector :=
  { nodeID := "node1",
    desc := NewDesc "directpv_stats" "Statistics exposed by DirectPV" [],
    getDeviceByFSUUID := fun _ => ("/dev/x1", none),
    getQuota := fun _ _ => (none, none) }

/-- A mounted volume named `X`. -/
def volX : Volume :=
  { Name := "X", Labels := none,
    Status := { FSUUID := "u4", NodeName := "node1", TotalCapacity := 20,
                ContainerPath := "/var/lib/x" } }

/-- A collector whose device resolver always succeeds and whose quota prober
returns a nil quota together with a nil error for the volume named `X`, and a
quota of 40 used of 100 for every other volume. -/
def nilQuotaForXCollector : metricsCollector :=
  { nodeID := "node1",
    desc := NewDesc "directpv_stats" "Statistics exposed by DirectPV" [],
    getDeviceByFSUUID := fun _ => ("/dev/x1", none),
    getQuota := fun _ volumeID =>
      if volumeID = "X" then (none, none)
      else (some { CurrentSpace := 40, TotalSpace := 100 }, none) }

/-! # Theorems

## What `publishVolumeStats` does in each of its four cases -/

theorem publish_of_resolve_error (AppName : String) (mc : metricsCollector) (volume : Volume)
    (device : String) (err : Error)
    (hdev : mc.getDeviceByFSUUID volume.Status.FSUUID = (device, some err)) :
    publishVolumeStats AppName mc volume =
      { effects :=
          [ Effect.resolveCall volume.Status.FSUUID,
            Effect.log none err
              ("unable to find device by FSUUID; " ++
                "either device is removed or run command " ++
                "`sudo udevadm control --reload-rules && sudo udevadm trigger`" ++
                "on the host to reload")
              [("FSUUID", volume.Status.FSUUID)],
            Effect.event volume EventTypeWarning "NodeStageVolume"
              (eventMessage volume.Status.FSUUID) ],
        panicked := false } := by
  simp [publishVolumeStats, hdev]

theorem publish_of_quota_error (AppName : String) (mc : metricsCollector) (volume : Volume)
    (device : String) (quota : Option Quota) (err : Error)
    (hdev : mc.getDeviceByFSUUID volume.Status.FSUUID = (device, none))
    (hquota : mc.getQuota device volume.Name = (quota, some err)) :
    publishVolumeStats AppName mc volume =
      { effects :=
          [ Effect.resolveCall volume.Status.FSUUID,
            Effect.quotaCall device volume.Name,
            Effect.log none err "unable to get quota information" [("volume", volume.Name)] ],
        panicked := false } := by
  simp [publishVolumeStats, hdev, hquota]

theorem publish_of_nil_quota (AppName : String) (mc : metricsCollector) (volume : Volume)
    (device : String)
    (hdev : mc.getDeviceByFSUUID volume.Status.FSUUID = (device, none))
    (hquota : mc.getQuota device volume.Name = (none, none)) :
    publishVolumeStats AppName mc volume =
      { effects :=
          [ Effect.resolveCall volume.Status.FSUUID,
            Effect.quotaCall device volume.Name ],
        panicked := true } := by
  simp [publishVolumeStats, hdev, hquota]

theorem publish_of_quota (AppName : String) (mc : metricsCollector) (volume : Volume)
    (device : String) (quota : Quota)
    (hdev : mc.getDeviceByFSUUID volume.Status.FSUUID = (device, none))
    (hquota : mc.getQuota device volume.Name = (some quota, none)) :
    publishVolumeStats AppName mc volume =
      { effects :=
          [ Effect.resolveCall volume.Status.FSUUID,
            Effect.quotaCall device volume.Name,
            Effect.sample
              { desc := NewDesc (BuildFQName AppName "stats" "bytes_used")
                  "Total number of bytes used by the volume" ["tenant", "volumeID", "node"],
                valueType := ValueType.GaugeValue,
                value := float64 (Int.ofNat quota.CurrentSpace),
                labelValues := [tenantName AppName volume, volume.Name, volume.Status.NodeName] },
            Effect.sample
              { desc := NewDesc (BuildFQName AppName "stats" "bytes_total")
                  "Total number of bytes allocated to the volume" ["tenant", "volumeID", "node"],
                valueType := ValueType.GaugeValue,
                value := float64 volume.Status.TotalCapacity,
                labelValues := [tenantName AppName volume, volume.Name, volume.Status.NodeName] } ],
        panicked := false } := by
  simp [publishVolumeStats, hdev, hquota, NewConstMetric, NewDesc]

/-- Every run of `publishVolumeStats` falls in one of the four cases. -/
theorem publish_cases (mc : metricsCollector) (volume : Volume) :
    (∃ device err, mc.getDeviceByFSUUID volume.Status.FSUUID = (device, some err)) ∨
    (∃ device quota err, mc.getDeviceByFSUUID volume.Status.FSUUID = (device, none) ∧
      mc.getQuota device volume.Name = (quota, some err)) ∨
    (∃ device, mc.getDeviceByFSUUID volume.Status.FSUUID = (device, none) ∧
      mc.getQuota device volume.Name = (none, none)) ∨
    (∃ device quota, mc.getDeviceByFSUUID volume.Status.FSUUID = (device, none) ∧
      mc.getQuota device volume.Name = (some quota, none)) := by
  rcases h : mc.getDeviceByFSUUID volume.Status.FSUUID with ⟨device, _ | err⟩
  · rcases hq : mc.getQuota device volume.Name with ⟨_ | quota, _ | err⟩
    · exact Or.inr (Or.inr (Or.inl ⟨device, rfl, hq⟩))
    · exact Or.inr (Or.inl ⟨device, none, err, rfl, hq⟩)
    · exact Or.inr (Or.inr (Or.inr ⟨device, quota, rfl, hq⟩))
    · exact Or.inr (Or.inl ⟨device, some quota, err, rfl, hq⟩)
  · exact Or.inl ⟨device, err, rfl⟩

/-! ## The loop of `Collect` -/

theorem Collect_of_list_ok (AppName : String) (mc : metricsCollector)
    (stream : List ListVolumeResult) :
    Collect AppName (fun _ => (stream, none)) mc = collectLoop AppName mc stream := rfl

theorem collectLoop_cons_err (AppName : String) (mc : metricsCollector)
    (result : ListVolumeResult) (rest : List ListVolumeResult) (err : Error)
    (herr : result.Err = some err) :
    collectLoop AppName mc (result :: rest) = { effects := [], panicked := false } := by
  simp [collectLoop, herr]

theorem collectLoop_cons_skip (AppName : String) (mc : metricsCollector)
    (result : ListVolumeResult) (rest : List ListVolumeResult)
    (herr : result.Err = none) (hpath : result.Volume.Status.ContainerPath = "") :
    collectLoop AppName mc (result :: rest) = collectLoop AppName mc rest := by
  simp [collectLoop, herr, hpath]

theorem collectLoop_cons_publish (AppName : String) (mc : metricsCollector)
    (result : ListVolumeResult) (rest : List ListVolumeResult)
    (herr : result.Err = none) (hpath : result.Volume.Status.ContainerPath ≠ "") :
    collectLoop AppName mc (result :: rest) =
      (publishVolumeStats AppName mc result.Volume).andThen (collectLoop AppName mc rest) := by
  simp [collectLoop, herr, hpath, Outcome.andThen]

/-- When the loop runs through `before`, the items after it are processed as
they would be on their own. -/
theorem collectLoop_append_of_runsThrough (AppName : String) (mc : metricsCollector)
    (before rest : List ListVolumeResult) (h : runsThrough AppName mc before = true) :
    collectLoop AppName mc (before ++ rest) =
      { effects := (collectLoop AppName mc before).effects ++ (collectLoop AppName mc rest).effects,
        panicked := (collectLoop AppName mc rest).panicked } := by
  induction before with
  | nil => simp [collectLoop]
  | cons result before ih =>
    simp only [runsThrough, List.all_cons, Bool.and_eq_true, Bool.or_eq_true, decide_eq_true_eq,
      Bool.not_eq_true', Option.isNone_iff_eq_none] at h
    obtain ⟨⟨herr, hres⟩, hrest⟩ := h
    have ih := ih hrest
    by_cases hpath : result.Volume.Status.ContainerPath = ""
    · rw [List.cons_append, collectLoop_cons_skip _ _ _ _ herr hpath,
        collectLoop_cons_skip _ _ _ _ herr hpath, ih]
    · have hp : (publishVolumeStats AppName mc result.Volume).panicked = false := by
        rcases hres with h | h
        · exact absurd h hpath
        · exact h
      rw [List.cons_append, collectLoop_cons_publish _ _ _ _ herr hpath,
        collectLoop_cons_publish _ _ _ _ herr hpath, ih]
      simp [Outcome.andThen, hp]

/-- When the loop does not run through `before`, the cycle ends inside it and
what follows is not processed. -/
theorem collectLoop_append_of_not_runsThrough (AppName : String) (mc : metricsCollector)
    (before rest : List ListVolumeResult) (h : runsThrough AppName mc before = false) :
    collectLoop AppName mc (before ++ rest) = collectLoop AppName mc before := by
  induction before with
  | nil => simp [runsThrough] at h
  | cons result before ih =>
    rcases herr : result.Err with _ | err
    · by_cases hpath : result.Volume.Status.ContainerPath = ""
      · have hrest : runsThrough AppName mc before = false := by
          simpa [runsThrough, herr, hpath] using h
        rw [List.cons_append, collectLoop_cons_skip _ _ _ _ herr hpath,
          collectLoop_cons_skip _ _ _ _ herr hpath, ih hrest]
      · by_cases hp : (publishVolumeStats AppName mc result.Volume).panicked = true
        · rw [List.cons_append, collectLoop_cons_publish _ _ _ _ herr hpath,
            collectLoop_cons_publish _ _ _ _ herr hpath]
          simp [Outcome.andThen, hp]
        · have hrest : runsThrough AppName mc before = false := by
            simpa [runsThrough, herr, hpath, hp] using h
          rw [List.cons_append, collectLoop_cons_publish _ _ _ _ herr hpath,
            collectLoop_cons_publish _ _ _ _ herr hpath, ih hrest]
    · rw [List.cons_append, collectLoop_cons_err _ _ _ _ err herr,
        collectLoop_cons_err _ _ _ _ err herr]

/-! ## Per-volume publication -/

/-- C1: a volume with a non-empty container path whose device resolves and
whose quota probe succeeds gets exactly two samples, from `publishVolumeStats`
and from a cycle of `Collect` that delivers it: the `bytes_used` gauge followed
by the `bytes_total` gauge, both labelled `tenant, volumeID, node` with the same
values, namely the tenant, the volume name and the node name, where the tenant
is the entry under the tenant label key, or the empty string when the label set
is nil or has no such key. -/
theorem C1_two_samples_with_shared_labels (AppName : String) (mc : metricsCollector)
    (volume : Volume) (device : String) (quota : Quota)
    (hpath : volume.Status.ContainerPath ≠ "")
    (hdev : mc.getDeviceByFSUUID volume.Status.FSUUID = (device, none))
    (hquota : mc.getQuota device volume.Name = (some quota, none)) :
    ∃ used total : Metric, ∃ tenant : String,
      (publishVolumeStats AppName mc volume).samples = [used, total] ∧
      (Collect AppName (fun _ => ([⟨volume, none⟩], none)) mc).samples = [used, total] ∧
      used.desc.fqName = BuildFQName AppName "stats" "bytes_used" ∧
      total.desc.fqName = BuildFQName AppName "stats" "bytes_total" ∧
      used.valueType = ValueType.GaugeValue ∧ total.valueType = ValueType.GaugeValue ∧
      used.desc.variableLabels = ["tenant", "volumeID", "node"] ∧
      total.desc.variableLabels = ["tenant", "volumeID", "node"] ∧
      used.labelValues = [tenant, volume.Name, volume.Status.NodeName] ∧
      total.labelValues = [tenant, volume.Name, volume.Status.NodeName] ∧
      (volume.Labels = none → tenant = "") ∧
      (∀ labels, volume.Labels = some labels →
        labels.lookup (tenantLabel AppName) = none → tenant = "") ∧
      (∀ labels value, volume.Labels = some labels →
        labels.lookup (tenantLabel AppName) = some value → tenant = value) := by
  have hpub := publish_of_quota AppName mc volume device quota hdev hquota
  refine ⟨
    { desc := NewDesc (BuildFQName AppName "stats" "bytes_used")
        "Total number of bytes used by the volume" ["tenant", "volumeID", "node"],
      valueType := ValueType.GaugeValue,
      value := float64 (Int.ofNat quota.CurrentSpace),
      labelValues := [tenantName AppName volume, volume.Name, volume.Status.NodeName] },
    { desc := NewDesc (BuildFQName AppName "stats" "bytes_total")
        "Total number of bytes allocated to the volume" ["tenant", "volumeID", "node"],
      valueType := ValueType.GaugeValue,
      value := float64 volume.Status.TotalCapacity,
      labelValues := [tenantName AppName volume, volume.Name, volume.Status.NodeName] },
    tenantName AppName volume, ?_, ?_, rfl, rfl, rfl, rfl, rfl, rfl, rfl, rfl, ?_, ?_, ?_⟩
  · rw [hpub]; rfl
  · rw [Collect_of_list_ok, collectLoop_cons_publish AppName mc ⟨volume, none⟩ [] rfl hpath]
    simp only [hpub, Outcome.andThen, collectLoop]
    rfl
  · intro h; simp [tenantName, Volume.GetLabels, h]
  · intro labels h hl; simp [tenantName, Volume.GetLabels, h, hl]
  · intro labels value h hl; simp [tenantName, Volume.GetLabels, h, hl]

/-- Witness of C1: volume A of the scenario. -/
theorem C1_two_samples_with_shared_labels_witness :
    ∃ used total : Metric, ∃ tenant : String,
      (publishVolumeStats "directpv" scenarioCollector volA).samples = [used, total] ∧
      (Collect "directpv" (fun _ => ([⟨volA, none⟩], none)) scenarioCollector).samples
        = [used, total] ∧
      used.desc.fqName = BuildFQName "directpv" "stats" "bytes_used" ∧
      total.desc.fqName = BuildFQName "directpv" "stats" "bytes_total" ∧
      used.valueType = ValueType.GaugeValue ∧ total.valueType = ValueType.GaugeValue ∧
      used.desc.variableLabels = ["tenant", "volumeID", "node"] ∧
      total.desc.variableLabels = ["tenant", "volumeID", "node"] ∧
      used.labelValues = [tenant, volA.Name, volA.Status.NodeName] ∧
      total.labelValues = [tenant, volA.Name, volA.Status.NodeName] ∧
      (volA.Labels = none → tenant = "") ∧
      (∀ labels, volA.Labels = some labels →
        labels.lookup (tenantLabel "directpv") = none → tenant = "") ∧
      (∀ labels value, volA.Labels = some labels →
        labels.lookup (tenantLabel "directpv") = some value → tenant = value) :=
  C1_two_samples_with_shared_labels "directpv" scenarioCollector volA "/dev/x1"
    { CurrentSpace := 40, TotalSpace := 100 } (by decide) (by decide) (by decide)

/-- C2: when the device resolution of a volume fails, `publishVolumeStats`
emits no sample for it, records exactly one warning event on it whose message
contains its filesystem UUID, does not call the quota prober and returns
normally; a cycle of `Collect` that reaches the volume performs the effects of
this one publication at its place and processes the later items exactly as a
cycle without the volume does, and a cycle that ends before the volume is the
same with or without it. -/
theorem C2_resolution_failure_skips_volume (AppName : String) (mc : metricsCollector)
    (volume : Volume) (device : String) (err : Error)
    (hpath : volume.Status.ContainerPath ≠ "")
    (hdev : mc.getDeviceByFSUUID volume.Status.FSUUID = (device, some err)) :
    (publishVolumeStats AppName mc volume).samples = [] ∧
    (∃ message front back,
      (publishVolumeStats AppName mc volume).events =
        [(volume, EventTypeWarning, "NodeStageVolume", message)] ∧
      message = front ++ volume.Status.FSUUID ++ back) ∧
    (publishVolumeStats AppName mc volume).quotaCalls = [] ∧
    (publishVolumeStats AppName mc volume).panicked = false ∧
    ∀ before after : List ListVolumeResult,
      (runsThrough AppName mc before = true →
        Collect AppName (fun _ => (before ++ ⟨volume, none⟩ :: after, none)) mc =
          { effects := (Collect AppName (fun _ => (before, none)) mc).effects ++
              (publishVolumeStats AppName mc volume).effects ++
              (Collect AppName (fun _ => (after, none)) mc).effects,
            panicked := (Collect AppName (fun _ => (after, none)) mc).panicked } ∧
        Collect AppName (fun _ => (before ++ after, none)) mc =
          { effects := (Collect AppName (fun _ => (before, none)) mc).effects ++
              (Collect AppName (fun _ => (after, none)) mc).effects,
            panicked := (Collect AppName (fun _ => (after, none)) mc).panicked }) ∧
      (runsThrough AppName mc before = false →
        Collect AppName (fun _ => (before ++ ⟨volume, none⟩ :: after, none)) mc =
          Collect AppName (fun _ => (before ++ after, none)) mc) := by
  have hpub := publish_of_resolve_error AppName mc volume device err hdev
  refine ⟨by rw [hpub]; rfl, ⟨eventMessage volume.Status.FSUUID,
    "unable to find device by FSUUID ",
    "; either device is removed or run command " ++
      "`sudo udevadm control --reload-rules && sudo udevadm trigger`" ++
      " on the host to reload", by rw [hpub]; rfl, ?_⟩,
    by rw [hpub]; rfl, by rw [hpub], ?_⟩
  · simp [eventMessage, String.append_assoc]
  · intro before after
    simp only [Collect_of_list_ok]
    refine ⟨fun h => ⟨?_, collectLoop_append_of_runsThrough AppName mc before after h⟩,
      fun h => ?_⟩
    · rw [collectLoop_append_of_runsThrough AppName mc before _ h,
        collectLoop_cons_publish AppName mc ⟨volume, none⟩ after rfl hpath]
      simp [Outcome.andThen, hpub]
    · rw [collectLoop_append_of_not_runsThrough AppName mc before _ h,
        collectLoop_append_of_not_runsThrough AppName mc before _ h]

/-- Witness of C2: volume C of the scenario, whose UUID does not resolve,
delivered before volume A. -/
theorem C2_resolution_failure_skips_volume_witness :
    volC.Status.ContainerPath ≠ "" ∧
    scenarioCollector.getDeviceByFSUUID volC.Status.FSUUID = ("", some "device not found") ∧
    (publishVolumeStats "directpv" scenarioCollector volC).samples = [] ∧
    (publishVolumeStats "directpv" scenarioCollector volC).quotaCalls = [] ∧
    (publishVolumeStats "directpv" scenarioCollector volC).panicked = false ∧
    Collect "directpv" (fun _ => ([] ++ ⟨volC, none⟩ :: [⟨volA, none⟩], none)) scenarioCollector =
      { effects := (Collect "directpv" (fun _ => ([], none)) scenarioCollector).effects ++
          (publishVolumeStats "directpv" scenarioCollector volC).effects ++
          (Collect "directpv" (fun _ => ([⟨volA, none⟩], none)) scenarioCollector).effects,
        panicked :=
          (Collect "directpv" (fun _ => ([⟨volA, none⟩], none)) scenarioCollector).panicked } :=
  have h := C2_resolution_failure_skips_volume "directpv" scenarioCollector volC ""
    "device not found" (by decide) (by decide)
  ⟨by decide, by decide, h.1, h.2.2.1, h.2.2.2.1, ((h.2.2.2.2 [] [⟨volA, none⟩]).1 rfl).1⟩

/-- C3: when the device of a volume resolves and the quota probe returns an
error, `publishVolumeStats` emits no sample and records no event for it and
returns normally; a cycle of `Collect` that reaches the volume performs the
effects of this one publication at its place and processes the later items
exactly as a cycle without the volume does, and a cycle that ends before the
volume is the same with or without it. -/
theorem C3_quota_failure_skips_volume (AppName : String) (mc : metricsCollector)
    (volume : Volume) (device : String) (quota : Option Quota) (err : Error)
    (hpath : volume.Status.ContainerPath ≠ "")
    (hdev : mc.getDeviceByFSUUID volume.Status.FSUUID = (device, none))
    (hquota : mc.getQuota device volume.Name = (quota, some err)) :
    (publishVolumeStats AppName mc volume).samples = [] ∧
    (publishVolumeStats AppName mc volume).events = [] ∧
    (publishVolumeStats AppName mc volume).panicked = false ∧
    ∀ before after : List ListVolumeResult,
      (runsThrough AppName mc before = true →
        Collect AppName (fun _ => (before ++ ⟨volume, none⟩ :: after, none)) mc =
          { effects := (Collect AppName (fun _ => (before, none)) mc).effects ++
              (publishVolumeStats AppName mc volume).effects ++
              (Collect AppName (fun _ => (after, none)) mc).effects,
            panicked := (Collect AppName (fun _ => (after, none)) mc).panicked } ∧
        Collect AppName (fun _ => (before ++ after, none)) mc =
          { effects := (Collect AppName (fun _ => (before, none)) mc).effects ++
              (Collect AppName (fun _ => (after, none)) mc).effects,
            panicked := (Collect AppName (fun _ => (after, none)) mc).panicked }) ∧
      (runsThrough AppName mc before = false →
        Collect AppName (fun _ => (before ++ ⟨volume, none⟩ :: after, none)) mc =
          Collect AppName (fun _ => (before ++ after, none)) mc) := by
  have hpub := publish_of_quota_error AppName mc volume device quota err hdev hquota
  refine ⟨by rw [hpub]; rfl, by rw [hpub]; rfl, by rw [hpub], ?_⟩
  intro before after
  simp only [Collect_of_list_ok]
  refine ⟨fun h => ⟨?_, collectLoop_append_of_runsThrough AppName mc before after h⟩,
    fun h => ?_⟩
  · rw [collectLoop_append_of_runsThrough AppName mc before _ h,
      collectLoop_cons_publish AppName mc ⟨volume, none⟩ after rfl hpath]
    simp [Outcome.andThen, hpub]
  · rw [collectLoop_append_of_not_runsThrough AppName mc before _ h,
      collectLoop_append_of_not_runsThrough AppName mc before _ h]

/-- Witness of C3: a volume named `D` on the resolving device, for which the
scenario has no quota, delivered before volume A. -/
theorem C3_quota_failure_skips_volume_witness :
    volD.Status.ContainerPath ≠ "" ∧
    scenarioCollector.getDeviceByFSUUID volD.Status.FSUUID = ("/dev/x1", none) ∧
    scenarioCollector.getQuota "/dev/x1" volD.Name = (none, some "quota not found") ∧
    (publishVolumeStats "directpv" scenarioCollector volD).samples = [] ∧
    (publishVolumeStats "directpv" scenarioCollector volD).events = [] ∧
    (publishVolumeStats "directpv" scenarioCollector volD).panicked = false ∧
    Collect "directpv" (fun _ => ([] ++ ⟨volD, none⟩ :: [⟨volA, none⟩], none)) scenarioCollector =
      { effects := (Collect "directpv" (fun _ => ([], none)) scenarioCollector).effects ++
          (publishVolumeStats "directpv" scenarioCollector volD).effects ++
          (Collect "directpv" (fun _ => ([⟨volA, none⟩], none)) scenarioCollector).effects,
        panicked :=
          (Collect "directpv" (fun _ => ([⟨volA, none⟩], none)) scenarioCollector).panicked } :=
  have h := C3_quota_failure_skips_volume "directpv" scenarioCollector volD "/dev/x1" none
    "quota not found" (by decide) (by decide) (by decide)
  ⟨by decide, by decide, by decide, h.1, h.2.1, h.2.2.1, ((h.2.2.2 [] [⟨volA, none⟩]).1 rfl).1⟩

/-! ## The collection cycle -/

/-- C4: a successfully delivered volume whose container path is empty is left
out by `Collect`, for every device resolver and quota prober: a cycle over the
volume alone has no effect at all (no sample, no event, no call), and at any
place of a stream the cycle is the same with or without the volume. -/
theorem C4_unmounted_volume_excluded (AppName : String) (mc : metricsCollector)
    (volume : Volume) (hpath : volume.Status.ContainerPath = "") :
    Collect AppName (fun _ => ([⟨volume, none⟩], none)) mc =
      { effects := [], panicked := false } ∧
    ∀ before after : List ListVolumeResult,
      Collect AppName (fun _ => (before ++ ⟨volume, none⟩ :: after, none)) mc =
        Collect AppName (fun _ => (before ++ after, none)) mc := by
  refine ⟨?_, fun before after => ?_⟩
  · rw [Collect_of_list_ok, collectLoop_cons_skip AppName mc ⟨volume, none⟩ [] rfl hpath]
    rfl
  · simp only [Collect_of_list_ok]
    cases h : runsThrough AppName mc before
    · rw [collectLoop_append_of_not_runsThrough AppName mc before _ h,
        collectLoop_append_of_not_runsThrough AppName mc before _ h]
    · rw [collectLoop_append_of_runsThrough AppName mc before _ h,
        collectLoop_append_of_runsThrough AppName mc before _ h,
        collectLoop_cons_skip AppName mc ⟨volume, none⟩ after rfl hpath]

/-- Witness of C4: volume B of the scenario, between A and C. -/
theorem C4_unmounted_volume_excluded_witness :
    volB.Status.ContainerPath = "" ∧
    Collect "directpv" (fun _ => ([⟨volB, none⟩], none)) scenarioCollector =
      { effects := [], panicked := false } ∧
    Collect "directpv" scenarioList scenarioCollector =
      Collect "directpv" (fun _ => ([⟨volA, none⟩, ⟨volC, none⟩], none)) scenarioCollector :=
  have h := C4_unmounted_volume_excluded "directpv" scenarioCollector volB (by decide)
  ⟨by decide, h.1, h.2 [⟨volA, none⟩] [⟨volC, none⟩]⟩

/-- C7: when the list request returns an error, `Collect` ends at once: no
sample, no call of the device resolver, no call of the quota prober, no event,
and a normal return; the only effect is the log line. -/
theorem C7_list_error_aborts_cycle (AppName : String) (mc : metricsCollector)
    (ListVolumes : List String → List ListVolumeResult × Option Error)
    (resultCh : List ListVolumeResult) (err : Error)
    (hlist : ListVolumes [mc.nodeID] = (resultCh, some err)) :
    (Collect AppName ListVolumes mc).samples = [] ∧
    (Collect AppName ListVolumes mc).resolveCalls = [] ∧
    (Collect AppName ListVolumes mc).quotaCalls = [] ∧
    (Collect AppName ListVolumes mc).events = [] ∧
    (Collect AppName ListVolumes mc).panicked = false ∧
    Collect AppName ListVolumes mc =
      { effects := [Effect.log (some 3) err "unable to get volume list" []],
        panicked := false } := by
  have h : Collect AppName ListVolumes mc =
      { effects := [Effect.log (some 3) err "unable to get volume list" []],
        panicked := false } := by
    simp [Collect, hlist]
  rw [h]
  exact ⟨rfl, rfl, rfl, rfl, rfl, rfl⟩

/-- Witness of C7: the lister fails although it hands back the stream of the
scenario. -/
theorem C7_list_error_aborts_cycle_witness :
    (Collect "directpv" (fun _ => ((scenarioList []).1, some "unreachable"))
      scenarioCollector).samples = [] :=
  (C7_list_error_aborts_cycle "directpv" scenarioCollector
    (fun _ => ((scenarioList []).1, some "unreachable")) (scenarioList []).1 "unreachable" rfl).1

/-! ## Samples of a cycle -/

theorem publish_no_panic_of_contract (AppName : String) (mc : metricsCollector)
    (hq : QuotaContract mc) (volume : Volume) :
    (publishVolumeStats AppName mc volume).panicked = false := by
  rcases publish_cases mc volume with ⟨d, e, h⟩ | ⟨d, q, e, h, h'⟩ | ⟨d, h, h'⟩ | ⟨d, q, h, h'⟩
  · rw [publish_of_resolve_error AppName mc volume d e h]
  · rw [publish_of_quota_error AppName mc volume d q e h h']
  · exact absurd (by rw [h']) (hq d volume.Name (by rw [h']))
  · rw [publish_of_quota AppName mc volume d q h h']

theorem samples_andThen (first second : Outcome) (h : first.panicked = false) :
    (first.andThen second).samples = first.samples ++ second.samples := by
  simp [Outcome.andThen, h, Outcome.samples, List.filterMap_append]

theorem samples_andThen_of_panic (first second : Outcome) (h : first.panicked = true) :
    (first.andThen second).samples = first.samples := by
  simp [Outcome.andThen, h]

theorem publishedVolumes_cons_err (result : ListVolumeResult) (rest : List ListVolumeResult)
    (err : Error) (herr : result.Err = some err) : publishedVolumes (result :: rest) = [] := by
  simp [publishedVolumes, List.takeWhile_cons, herr]

theorem publishedVolumes_cons_skip (result : ListVolumeResult) (rest : List ListVolumeResult)
    (herr : result.Err = none) (hpath : result.Volume.Status.ContainerPath = "") :
    publishedVolumes (result :: rest) = publishedVolumes rest := by
  simp [publishedVolumes, List.takeWhile_cons, herr, hpath]

theorem publishedVolumes_cons_publish (result : ListVolumeResult) (rest : List ListVolumeResult)
    (herr : result.Err = none) (hpath : result.Volume.Status.ContainerPath ≠ "") :
    publishedVolumes (result :: rest) = result.Volume :: publishedVolumes rest := by
  simp [publishedVolumes, List.takeWhile_cons, herr, hpath]

/-- Under the quota contract the samples of the loop are the samples of the
publications of the published volumes, in order. -/
theorem collectLoop_samples (AppName : String) (mc : metricsCollector) (hq : QuotaContract mc)
    (stream : List ListVolumeResult) :
    (collectLoop AppName mc stream).samples =
      (publishedVolumes stream).flatMap fun v => (publishVolumeStats AppName mc v).samples := by
  induction stream with
  | nil => rfl
  | cons result rest ih =>
    rcases herr : result.Err with _ | err
    · by_cases hpath : result.Volume.Status.ContainerPath = ""
      · rw [collectLoop_cons_skip _ _ _ _ herr hpath, publishedVolumes_cons_skip _ _ herr hpath, ih]
      · rw [collectLoop_cons_publish _ _ _ _ herr hpath,
          publishedVolumes_cons_publish _ _ herr hpath,
          samples_andThen _ _ (publish_no_panic_of_contract AppName mc hq _), ih,
          List.flatMap_cons]
    · rw [collectLoop_cons_err _ _ _ _ err herr, publishedVolumes_cons_err _ _ err herr]
      rfl

theorem scenario_contract : QuotaContract scenarioCollector := by
  intro device volumeID
  simp only [scenarioCollector]
  split <;> simp

/-- Counterexample to C5: the stream delivers the mounted volumes X and A, and
the quota prober returns a nil quota with a nil error for X. No item carries a
delivery error, so both volumes lie before the first one, and the samples
`publishVolumeStats` emits for them are none for X and two for A; but the
publication of X dereferences the nil quota, the panic ends `Collect`, and the
cycle emits no sample at all. -/
theorem C5_counterexample :
    (Collect "directpv" (fun _ => ([⟨volX, none⟩, ⟨volA, none⟩], none))
      nilQuotaForXCollector).samples = [] ∧
    (publishVolumeStats "directpv" nilQuotaForXCollector volX).samples = [] ∧
    (publishVolumeStats "directpv" nilQuotaForXCollector volA).samples.length = 2 ∧
    (Collect "directpv" (fun _ => ([⟨volX, none⟩, ⟨volA, none⟩], none))
      nilQuotaForXCollector).samples ≠
      ((publishedVolumes [⟨volX, none⟩, ⟨volA, none⟩]).flatMap
        fun v => (publishVolumeStats "directpv" nilQuotaForXCollector v).samples) := by
  decide

/-- C5 as amended: when the quota prober returns a quota whenever it returns no
error, then for a stream returned by a successful list request the samples
`Collect` emits are the concatenation, in delivery order, of the samples
`publishVolumeStats` emits for each volume with a non-empty container path
delivered strictly before the first item carrying a delivery error (all such
volumes when no item carries one); nothing comes from an item at or after that
position.  In the scenario of the specification the samples are
`bytes_used = 40` and `bytes_total = 100` for A, and one warning event is
recorded, on C. -/
theorem C5_samples_in_delivery_order (AppName : String) (mc : metricsCollector)
    (hq : QuotaContract mc) (stream : List ListVolumeResult) :
    (Collect AppName (fun _ => (stream, none)) mc).samples =
      ((publishedVolumes stream).flatMap fun v => (publishVolumeStats AppName mc v).samples) ∧
    (Collect "directpv" scenarioList scenarioCollector).samples =
      [ { desc := NewDesc "directpv_stats_bytes_used"
            "Total number of bytes used by the volume" ["tenant", "volumeID", "node"],
          valueType := ValueType.GaugeValue, value := 40,
          labelValues := ["t1", "A", "node1"] },
        { desc := NewDesc "directpv_stats_bytes_total"
            "Total number of bytes allocated to the volume" ["tenant", "volumeID", "node"],
          valueType := ValueType.GaugeValue, value := 100,
          labelValues := ["t1", "A", "node1"] } ] ∧
    (Collect "directpv" scenarioList scenarioCollector).events =
      [(volC, "Warning", "NodeStageVolume", eventMessage "u2")] := by
  refine ⟨?_, by decide, by decide⟩
  rw [Collect_of_list_ok]
  exact collectLoop_samples AppName mc hq stream

/-- Witness of C5 as amended: the scenario with a faulty item and a further mounted volume
appended; only A, delivered before the fault, is published. -/
theorem C5_samples_in_delivery_order_witness :
    QuotaContract scenarioCollector ∧
    (Collect "directpv"
      (fun _ => ([⟨volA, none⟩, ⟨volB, none⟩, ⟨volC, none⟩, ⟨volD, some "fault"⟩, ⟨volA, none⟩],
        none)) scenarioCollector).samples =
      ((publishedVolumes
        [⟨volA, none⟩, ⟨volB, none⟩, ⟨volC, none⟩, ⟨volD, some "fault"⟩, ⟨volA, none⟩]).flatMap
        fun v => (publishVolumeStats "directpv" scenarioCollector v).samples) :=
  ⟨scenario_contract,
    (C5_samples_in_delivery_order "directpv" scenarioCollector scenario_contract
      [⟨volA, none⟩, ⟨volB, none⟩, ⟨volC, none⟩, ⟨volD, some "fault"⟩, ⟨volA, none⟩]).1⟩

/-! ## Sample values -/

theorem float64_of_small (n : Nat) (h : n < 2 ^ 53) : float64 (Int.ofNat n) = Int.ofNat n := by
  show Int.ofNat (float64OfNat n) = Int.ofNat n
  rw [float64OfNat, if_pos h]

/-- C6: for a volume that is published with the quota the prober returns, the
`bytes_used` sample holds `float64` of the current space of the quota (the
current space itself below `2 ^ 53`, where the conversion is exact) and the
`bytes_total` sample holds `float64` of the total capacity recorded in the
volume status; the total space of the quota is not used: a probe that differs
only in its total space gives the same samples, whether or not that total is
the recorded capacity. -/
theorem C6_values_from_quota_and_status (AppName : String) (mc mc' : metricsCollector)
    (volume : Volume) (device : String) (quota quota' : Quota)
    (hdev : mc.getDeviceByFSUUID volume.Status.FSUUID = (device, none))
    (hquota : mc.getQuota device volume.Name = (some quota, none))
    (hdev' : mc'.getDeviceByFSUUID volume.Status.FSUUID = (device, none))
    (hquota' : mc'.getQuota device volume.Name = (some quota', none))
    (hcurrent : quota'.CurrentSpace = quota.CurrentSpace) :
    (∃ used total : Metric,
      (publishVolumeStats AppName mc volume).samples = [used, total] ∧
      used.desc.fqName = BuildFQName AppName "stats" "bytes_used" ∧
      total.desc.fqName = BuildFQName AppName "stats" "bytes_total" ∧
      used.value = float64 (Int.ofNat quota.CurrentSpace) ∧
      (quota.CurrentSpace < 2 ^ 53 → used.value = Int.ofNat quota.CurrentSpace) ∧
      total.value = float64 volume.Status.TotalCapacity) ∧
    (publishVolumeStats AppName mc' volume).samples =
      (publishVolumeStats AppName mc volume).samples := by
  have hpub := publish_of_quota AppName mc volume device quota hdev hquota
  have hpub' := publish_of_quota AppName mc' volume device quota' hdev' hquota'
  refine ⟨⟨
    { desc := NewDesc (BuildFQName AppName "stats" "bytes_used")
        "Total number of bytes used by the volume" ["tenant", "volumeID", "node"],
      valueType := ValueType.GaugeValue,
      value := float64 (Int.ofNat quota.CurrentSpace),
      labelValues := [tenantName AppName volume, volume.Name, volume.Status.NodeName] },
    { desc := NewDesc (BuildFQName AppName "stats" "bytes_total")
        "Total number of bytes allocated to the volume" ["tenant", "volumeID", "node"],
      valueType := ValueType.GaugeValue,
      value := float64 volume.Status.TotalCapacity,
      labelValues := [tenantName AppName volume, volume.Name, volume.Status.NodeName] },
    by rw [hpub]; rfl, rfl, rfl, rfl, fun h => float64_of_small _ h, rfl⟩, ?_⟩
  rw [hpub, hpub', hcurrent]

/-- Witness of C6: volume A of the scenario against a prober that reports a
total space of 7 instead of 100. -/
theorem C6_values_from_quota_and_status_witness :
    (publishVolumeStats "directpv"
      { scenarioCollector with
        getQuota := fun _ _ => (some { CurrentSpace := 40, TotalSpace := 7 }, none) }
      volA).samples =
    (publishVolumeStats "directpv" scenarioCollector volA).samples :=
  (C6_values_from_quota_and_status "directpv" scenarioCollector
    { scenarioCollector with
      getQuota := fun _ _ => (some { CurrentSpace := 40, TotalSpace := 7 }, none) }
    volA "/dev/x1" { CurrentSpace := 40, TotalSpace := 100 } { CurrentSpace := 40, TotalSpace := 7 }
    (by decide) (by decide) (by decide) (by decide) rfl).2

/-! ## Delivery faults -/

theorem collectLoop_of_no_published (AppName : String) (mc : metricsCollector)
    (stream : List ListVolumeResult) (h : publishedVolumes stream = []) :
    collectLoop AppName mc stream = { effects := [], panicked := false } := by
  induction stream with
  | nil => rfl
  | cons result rest ih =>
    rcases herr : result.Err with _ | err
    · by_cases hpath : result.Volume.Status.ContainerPath = ""
      · rw [collectLoop_cons_skip _ _ _ _ herr hpath]
        exact ih (by rw [← publishedVolumes_cons_skip _ _ herr hpath]; exact h)
      · rw [publishedVolumes_cons_publish _ _ herr hpath] at h
        exact absurd h (List.cons_ne_nil _ _)
    · exact collectLoop_cons_err _ _ _ _ err herr

/-- Counterexample to C8: the stream delivers the mounted volume A of the
scenario and then a faulty item; the cycle ends on the fault and the two
samples of A have been emitted. -/
theorem C8_counterexample :
    (Collect "directpv" (fun _ => ([⟨volA, none⟩, ⟨volB, some "fault"⟩], none))
      scenarioCollector).samples.length = 2 := by
  decide

/-- C8 as amended: when an item of the stream carries a delivery fault the
cycle is the cycle of the stream cut before that item: nothing is emitted,
recorded or called for the faulty item and the items after it, while what was
emitted before stays emitted; the cycle has zero samples when no volume is
published before the fault, in particular when the fault comes first. -/
theorem C8_fault_ends_cycle_keeping_earlier_samples (AppName : String) (mc : metricsCollector)
    (before after : List ListVolumeResult) (item : ListVolumeResult) (err : Error)
    (herr : item.Err = some err) :
    Collect AppName (fun _ => (before ++ item :: after, none)) mc =
      Collect AppName (fun _ => (before, none)) mc ∧
    (publishedVolumes before = [] →
      (Collect AppName (fun _ => (before ++ item :: after, none)) mc).samples = []) ∧
    (Collect AppName (fun _ => (item :: after, none)) mc).samples = [] := by
  have hcut : collectLoop AppName mc (before ++ item :: after) = collectLoop AppName mc before := by
    cases h : runsThrough AppName mc before
    · exact collectLoop_append_of_not_runsThrough AppName mc before _ h
    · have h0 := collectLoop_append_of_runsThrough AppName mc before [] h
      rw [List.append_nil] at h0
      rw [collectLoop_append_of_runsThrough AppName mc before _ h,
        collectLoop_cons_err AppName mc item after err herr]
      exact h0.symm
  simp only [Collect_of_list_ok]
  refine ⟨hcut, fun h => ?_, ?_⟩
  · rw [hcut, collectLoop_of_no_published AppName mc before h]; rfl
  · rw [collectLoop_cons_err AppName mc item after err herr]; rfl

/-- Witness of C8 as amended: the stream of the counterexample. -/
theorem C8_fault_ends_cycle_keeping_earlier_samples_witness :
    Collect "directpv" (fun _ => ([⟨volA, none⟩] ++ ⟨volB, some "fault"⟩ :: [⟨volA, none⟩], none))
        scenarioCollector =
      Collect "directpv" (fun _ => ([⟨volA, none⟩], none)) scenarioCollector :=
  (C8_fault_ends_cycle_keeping_earlier_samples "directpv" scenarioCollector
    [⟨volA, none⟩] [⟨volA, none⟩] ⟨volB, some "fault"⟩ "fault" rfl).1

/-! ## Zero or two samples for a volume -/

/-- A publication emits nothing, or emits the `bytes_used` gauge and then the
`bytes_total` gauge of its volume and returns normally. -/
theorem publish_samples_shape (AppName : String) (mc : metricsCollector) (volume : Volume) :
    (publishVolumeStats AppName mc volume).samples = [] ∨
    ∃ used total : Metric,
      (publishVolumeStats AppName mc volume).samples = [used, total] ∧
      (publishVolumeStats AppName mc volume).panicked = false ∧
      used.desc.fqName = BuildFQName AppName "stats" "bytes_used" ∧
      total.desc.fqName = BuildFQName AppName "stats" "bytes_total" ∧
      used.labelValues = total.labelValues ∧
      used.volumeID = volume.Name ∧ total.volumeID = volume.Name := by
  rcases publish_cases mc volume with ⟨d, e, h⟩ | ⟨d, q, e, h, h'⟩ | ⟨d, h, h'⟩ | ⟨d, q, h, h'⟩
  · left; rw [publish_of_resolve_error AppName mc volume d e h]; rfl
  · left; rw [publish_of_quota_error AppName mc volume d q e h h']; rfl
  · left; rw [publish_of_nil_quota AppName mc volume d h h']; rfl
  · right
    rw [publish_of_quota AppName mc volume d q h h']
    exact ⟨_, _, rfl, rfl, rfl, rfl, rfl, rfl, rfl⟩

/-- The samples of the loop come in pairs, and those of one volume name are
twice as many as some number of published volumes of that name. -/
theorem collectLoop_pairs (AppName : String) (mc : metricsCollector) (name : String)
    (stream : List ListVolumeResult) :
    pairedSamples AppName (collectLoop AppName mc stream).samples ∧
    ∃ k, k ≤ ((publishedVolumes stream).map fun v => v.Name).count name ∧
      ((collectLoop AppName mc stream).samplesOf name).length = 2 * k := by
  induction stream with
  | nil => exact ⟨trivial, 0, Nat.zero_le _, rfl⟩
  | cons result rest ih =>
    rcases herr : result.Err with _ | err
    · by_cases hpath : result.Volume.Status.ContainerPath = ""
      · rw [collectLoop_cons_skip _ _ _ _ herr hpath, publishedVolumes_cons_skip _ _ herr hpath]
        exact ih
      · obtain ⟨ihp, k, hk, hlen⟩ := ih
        rw [collectLoop_cons_publish _ _ _ _ herr hpath,
          publishedVolumes_cons_publish _ _ herr hpath]
        rcases publish_samples_shape AppName mc result.Volume with
          hnil | ⟨used, total, hs, hp, hu, ht, hl, hvu, hvt⟩
        · cases hp : (publishVolumeStats AppName mc result.Volume).panicked
          · refine ⟨?_, k, ?_, ?_⟩
            · rw [samples_andThen _ _ hp, hnil]; exact ihp
            · rw [List.map_cons, List.count_cons]; omega
            · rw [Outcome.samplesOf, samples_andThen _ _ hp, hnil]; exact hlen
          · refine ⟨?_, 0, Nat.zero_le _, ?_⟩
            · rw [samples_andThen_of_panic _ _ hp, hnil]; trivial
            · rw [Outcome.samplesOf, samples_andThen_of_panic _ _ hp, hnil]; rfl
        · by_cases hname : result.Volume.Name = name
          · refine ⟨?_, k + 1, ?_, ?_⟩
            · rw [samples_andThen _ _ hp, hs]; exact ⟨hu, ht, hl, ihp⟩
            · rw [List.map_cons, List.count_cons]; simp [hname]; exact hk
            · rw [Outcome.samplesOf, samples_andThen _ _ hp, hs]
              rw [Outcome.samplesOf] at hlen
              simp [List.filter_cons, hvu, hvt, hname, hlen]; omega
          · refine ⟨?_, k, ?_, ?_⟩
            · rw [samples_andThen _ _ hp, hs]; exact ⟨hu, ht, hl, ihp⟩
            · rw [List.map_cons, List.count_cons]; omega
            · rw [Outcome.samplesOf, samples_andThen _ _ hp, hs]
              rw [Outcome.samplesOf] at hlen
              simp [List.filter_cons, hvu, hvt, hname, hlen]
    · rw [collectLoop_cons_err _ _ _ _ err herr]
      exact ⟨trivial, 0, Nat.zero_le _, rfl⟩

/-- Counterexample to C9: the stream delivers volume A of the scenario twice;
the cycle emits four samples with `volumeID = A`, neither zero nor two. -/
theorem C9_counterexample :
    ((Collect "directpv" (fun _ => ([⟨volA, none⟩, ⟨volA, none⟩], none))
      scenarioCollector).samplesOf volA.Name).length = 4 := by
  decide

/-- C9 as amended: in every cycle (every list outcome, every stream, every
behaviour of the resolver and the prober, a panic included) the samples come in
adjacent pairs, a `bytes_used` gauge directly followed by the `bytes_total`
gauge with the same label values, so `bytes_used` is never emitted without
`bytes_total`; and for every volume name carried by at most one of the volumes
the cycle publishes, the number of samples with that name as `volumeID` is
exactly 0 or exactly 2. -/
theorem C9_zero_or_two_samples_per_name (AppName : String)
    (ListVolumes : List String → List ListVolumeResult × Option Error)
    (mc : metricsCollector) :
    pairedSamples AppName (Collect AppName ListVolumes mc).samples ∧
    ∀ name : String,
      ((publishedVolumes (ListVolumes [mc.nodeID]).1).map fun v => v.Name).count name ≤ 1 →
      ((Collect AppName ListVolumes mc).samplesOf name).length = 0 ∨
        ((Collect AppName ListVolumes mc).samplesOf name).length = 2 := by
  rcases hl : ListVolumes [mc.nodeID] with ⟨resultCh, _ | err⟩
  · have hc : Collect AppName ListVolumes mc = collectLoop AppName mc resultCh := by
      simp [Collect, hl]
    rw [hc]
    refine ⟨(collectLoop_pairs AppName mc "" resultCh).1, fun name honce => ?_⟩
    obtain ⟨_, k, hk, hlen⟩ := collectLoop_pairs AppName mc name resultCh
    have : k ≤ 1 := le_trans hk honce
    omega
  · have hc : Collect AppName ListVolumes mc =
        { effects := [Effect.log (some 3) err "unable to get volume list" []],
          panicked := false } := by
      simp [Collect, hl]
    rw [hc]
    exact ⟨trivial, fun _ _ => Or.inl rfl⟩

/-- Witness of C9 as amended: the scenario, where A is published once and gets
two samples. -/
theorem C9_zero_or_two_samples_per_name_witness :
    ((publishedVolumes (scenarioList [scenarioCollector.nodeID]).1).map fun v => v.Name).count "A"
      ≤ 1 ∧
    (((Collect "directpv" scenarioList scenarioCollector).samplesOf "A").length = 0 ∨
      ((Collect "directpv" scenarioList scenarioCollector).samplesOf "A").length = 2) :=
  ⟨by decide, (C9_zero_or_two_samples_per_name "directpv" scenarioList scenarioCollector).2 "A"
    (by decide)⟩

/-! ## Hard failures -/

/-- Counterexample to C10: the quota prober returns a nil quota with a nil
error, a pair its signature allows; the cycle over the mounted volume A
dereferences the nil quota and panics. -/
theorem C10_counterexample :
    (Collect "directpv" (fun _ => ([⟨volA, none⟩], none)) nilQuotaCollector).panicked = true := by
  decide

/-- Under the quota contract a cycle emits at most two samples for each volume
it publishes. -/
theorem collectLoop_samples_length_le (AppName : String) (mc : metricsCollector)
    (hq : QuotaContract mc) (stream : List ListVolumeResult) :
    (collectLoop AppName mc stream).samples.length ≤ 2 * (publishedVolumes stream).length := by
  rw [collectLoop_samples AppName mc hq stream]
  induction publishedVolumes stream with
  | nil => simp
  | cons v vs ih =>
    rw [List.flatMap_cons, List.length_append, List.length_cons]
    have hv : (publishVolumeStats AppName mc v).samples.length ≤ 2 := by
      rcases publish_samples_shape AppName mc v with h | ⟨used, total, h, _⟩
      · rw [h]; exact Nat.zero_le _
      · rw [h]; exact Nat.le_refl _
    omega

/-- C10 as amended: when the quota prober returns a quota whenever it returns
no error, `Collect` returns normally for every list outcome, every finite
stream and every other behaviour of the resolver and the prober; failures only
lower the number of samples, which is at most two for each volume with a
non-empty container path delivered before the first delivery error. -/
theorem C10_no_panic_under_quota_contract (AppName : String)
    (ListVolumes : List String → List ListVolumeResult × Option Error)
    (mc : metricsCollector) (hq : QuotaContract mc) :
    (Collect AppName ListVolumes mc).panicked = false ∧
    (Collect AppName ListVolumes mc).samples.length ≤
      2 * (publishedVolumes (ListVolumes [mc.nodeID]).1).length := by
  have hloop : ∀ stream, (collectLoop AppName mc stream).panicked = false := by
    intro stream
    induction stream with
    | nil => rfl
    | cons result rest ih =>
      rcases herr : result.Err with _ | err
      · by_cases hpath : result.Volume.Status.ContainerPath = ""
        · rw [collectLoop_cons_skip _ _ _ _ herr hpath]; exact ih
        · rw [collectLoop_cons_publish _ _ _ _ herr hpath]
          simp [Outcome.andThen, publish_no_panic_of_contract AppName mc hq, ih]
      · rw [collectLoop_cons_err _ _ _ _ err herr]
  rcases hl : ListVolumes [mc.nodeID] with ⟨resultCh, _ | err⟩
  · have hc : Collect AppName ListVolumes mc = collectLoop AppName mc resultCh := by
      simp [Collect, hl]
    rw [hc]
    exact ⟨hloop resultCh, collectLoop_samples_length_le AppName mc hq resultCh⟩
  · have hc : Collect AppName ListVolumes mc =
        { effects := [Effect.log (some 3) err "unable to get volume list" []],
          panicked := false } := by
      simp [Collect, hl]
    rw [hc]
    exact ⟨rfl, Nat.zero_le _⟩

/-- Witness of C10 as amended: the scenario. -/
theorem C10_no_panic_under_quota_contract_witness :
    QuotaContract scenarioCollector ∧
    (Collect "directpv" scenarioList scenarioCollector).panicked = false :=
  ⟨scenario_contract,
    (C10_no_panic_under_quota_contract "directpv" scenarioList scenarioCollector
      scenario_contract).1⟩

end Metrics
